import Mathlib

/-!
Shallow embedding of `src/plug-ins/threeJsFileTranslator.py` (a Maya →
Three.js JSON exporter).  Host floating-point scalars are modelled as exact
rationals (`ℚ`); Python's `round(x, 8)` is modelled as decimal rounding of a
rational to 8 fractional digits.  Python exceptions are modelled with
`Except String`; the message carried mirrors the source's message where the
source builds one.  Host scene queries (pymel `ls`, `getPoints`,
`listConnections`, `keyframe`, `playbackOptions`, ...) are modelled as fields
of a `Scene`/`Mesh`/`Joint`/`Skin` record supplied as input.
-/

namespace ThreeJs

/-- `FLOAT_PRECISION = 8` (line 19 of the source). -/
def FLOAT_PRECISION : Nat := 8

/-- Python's `round(x, p)` on the exact-rational model of a float: round
`x * 10^p` to an integer and divide back.  (Tie behaviour differs between
Python's banker's rounding and `round`'s half-up; no claim depends on ties.) -/
def pyRound (x : ℚ) (p : Nat) : ℚ := (round (x * 10 ^ p) : ℚ) / 10 ^ p

/-- A world-space point / vector queried from the host. -/
structure Vec3 where
  x : ℚ
  y : ℚ
  z : ℚ
deriving DecidableEq, Repr

/-- A quaternion queried from the host. -/
structure Quat where
  x : ℚ
  y : ℚ
  z : ℚ
  w : ℚ
deriving DecidableEq, Repr

/-- pymel quaternion product, used for `getRotation(quaternion=True) *
getOrientation()` (lines 274 and 326). -/
def quatMul (a b : Quat) : Quat :=
  { x := a.w * b.x + a.x * b.w + a.y * b.z - a.z * b.y
    y := a.w * b.y - a.x * b.z + a.y * b.w + a.z * b.x
    z := a.w * b.z + a.x * b.y - a.y * b.x + a.z * b.w
    w := a.w * b.w - a.x * b.x - a.y * b.y - a.z * b.z }

/-- `_roundPos` (line 335). -/
def roundPos (pos : Vec3) : List ℚ :=
  [pyRound pos.x FLOAT_PRECISION, pyRound pos.y FLOAT_PRECISION,
   pyRound pos.z FLOAT_PRECISION]

/-- `_roundQuat` (line 338). -/
def roundQuat (rot : Quat) : List ℚ :=
  [pyRound rot.x FLOAT_PRECISION, pyRound rot.y FLOAT_PRECISION,
   pyRound rot.z FLOAT_PRECISION, pyRound rot.w FLOAT_PRECISION]

/-- One polygon of a mesh, as seen through the host query surface used by
`_exportFaces`: `getVertices()` (the mesh-local vertex indices),
`polygonVertexCount()` (the length of that list), `hasUVs()`,
`getUVIndex(v)` for each corner, `normalIndex(i)` for each corner.  The
`materialIndex` field models the result of the shading-engine membership
lookup `_getMaterialIndex` performs through the host (lines 116-126): the
resolved index into `self.materials`, `-1` when no connected material is
found. -/
structure Face where
  vertices : List Nat
  hasUVs : Bool
  uvIndices : List Nat
  normalIndices : List Nat
  materialIndex : Int
deriving DecidableEq, Repr

/-- A mesh node as seen through the host queries the exporter performs.
`connectionsCount` models `len(mesh.listConnections())` (line 72); `id` is
the node identity used for membership in `skin.getOutputGeometry()`. -/
structure Mesh where
  id : Nat
  name : String
  connectionsCount : Nat
  points : List Vec3
  faces : List Face
  normals : List Vec3
  binormals : List Vec3
  tangents : List Vec3
  us : List ℚ
  vs : List ℚ
deriving DecidableEq, Repr

/-- A skin cluster: `getOutputGeometry()` as mesh ids, `influenceObjects()`
as joint names, and `getWeights(mesh.vtx)` as per-mesh lists of per-vertex
weight rows (one weight per influence object). -/
structure Skin where
  outputGeometry : List Nat
  influenceNames : List String
  weightRows : List (Nat × List (List ℚ))
deriving DecidableEq, Repr

/-- A joint node: name, optional parent name (`getParent()`), rest
translation and rotation/orientation quaternions, and the host's existing
keyframe times (`keyframe(joint, query=True)`). -/
structure Joint where
  name : String
  parent : Option String
  translation : Vec3
  rotation : Quat
  orientation : Quat
  keyframeTimes : List ℚ
deriving DecidableEq, Repr

/-- A lambert shading node as read by `_exportMaterial` (lines 200-215).
The optional texture-map sub-exports (`_exportBumpMap` etc., lines 229-266)
only merge further host-supplied keys into the record and copy files through
an external side channel; no claim touches them and they are not modelled. -/
structure MaterialNode where
  name : String
  colorRgb : List ℚ
  diffuseCoeff : ℚ
  ambientRgb : List ℚ
  shadingName : String
  transparency : ℚ
  isPhong : Bool
  specularRgb : List ℚ
  cosPower : ℚ
deriving DecidableEq, Repr

/-- The host scene as queried by one export run: `ls(type='mesh')`,
`ls(type='skinCluster')`, `ls(type='joint')`, `ls(type='lambert')`,
`playbackOptions(min/maxTime)`, `currentUnit(time)`. -/
structure Scene where
  meshes : List Mesh
  skins : List Skin
  joints : List Joint
  lamberts : List MaterialNode
  minTime : ℚ
  maxTime : ℚ
  timeUnit : String
deriving DecidableEq, Repr

/-! ## Option parsing (`_parseOptions`, lines 75-90) -/

/-- The sixteen component keys (lines 23-26). -/
def componentKeys : List String :=
  ["vertices", "normals", "colors", "uvs", "faces",
   "materials", "diffuseMaps", "specularMaps", "glossMaps", "bumpMaps",
   "incandescenceMasks", "copyTextures",
   "bones", "skeletalAnim", "bakeAnimations", "prettyOutput"]

/-- Index of the first occurrence of `key` as a contiguous substring of `s`,
mirroring Python's `str.find` (and `key in s` via `isSome`). -/
def findSub (key : List Char) : List Char → Option Nat
  | [] => if key = [] then some 0 else none
  | c :: rest =>
    if key.isPrefixOf (c :: rest) then some 0
    else (findSub key rest).map (· + 1)

/-- Python's `str.split(sep)` for a one-character separator: splits on every
occurrence and keeps empty pieces (`"a  b".split(' ') == ['a','','b']`). -/
def splitChar (sep : Char) : List Char → List (List Char)
  | [] => [[]]
  | c :: rest =>
    if c = sep then [] :: splitChar sep rest
    else
      match splitChar sep rest with
      | [] => [[c]]
      | piece :: more => (c :: piece) :: more

/-- Value of a non-empty all-digit character list. -/
def digitsVal (ds : List Char) : Nat :=
  ds.foldl (fun acc c => acc * 10 + (c.toNat - '0'.toNat)) 0

/-- Python's `int(str)`: strip whitespace, optional sign, then at least one
digit and nothing else; `none` models the `ValueError`. -/
def pyInt (t : List Char) : Option Int :=
  let t1 := ((t.dropWhile (· = ' ')).reverse.dropWhile (· = ' ')).reverse
  match t1 with
  | '-' :: ds =>
    if ds ≠ [] ∧ ds.all Char.isDigit then some (-(digitsVal ds : Int)) else none
  | '+' :: ds =>
    if ds ≠ [] ∧ ds.all Char.isDigit then some (digitsVal ds : Int) else none
  | ds =>
    if ds ≠ [] ∧ ds.all Char.isDigit then some (digitsVal ds : Int) else none

/-- Python list indexing: `l[i]` raising `IndexError` when out of range. -/
def pyIndex (l : List (List Char)) (i : Nat) : Except String (List Char) :=
  match l[i]? with
  | some t => .ok t
  | none => .error "IndexError: list index out of range"

/-- Python `int(t)` raising `ValueError` on a malformed literal. -/
def pyIntE (t : List Char) : Except String Int :=
  match pyInt t with
  | some n => .ok n
  | none => .error ("ValueError: invalid literal for int(): " ++ String.mk t)

/-- The parsed `self.options` dictionary. -/
structure Options where
  vertices : Bool
  normals : Bool
  colors : Bool
  uvs : Bool
  faces : Bool
  materials : Bool
  diffuseMaps : Bool
  specularMaps : Bool
  glossMaps : Bool
  bumpMaps : Bool
  incandescenceMasks : Bool
  copyTextures : Bool
  bones : Bool
  skeletalAnim : Bool
  bakeAnimations : Bool
  prettyOutput : Bool
  influencesPerVertex : Option Int
  startFrame : Option Int
  endFrame : Option Int
  stepFrame : Option Int
deriving DecidableEq, Repr

/-- The flag dictionary built on lines 76-78: a key is enabled iff it occurs
as a substring of the option string (`key in optionsString`). -/
def baseOptions (s : List Char) : Options :=
  let flag := fun (k : String) => (findSub k.data s).isSome
  { vertices := flag "vertices", normals := flag "normals"
    colors := flag "colors", uvs := flag "uvs", faces := flag "faces"
    materials := flag "materials", diffuseMaps := flag "diffuseMaps"
    specularMaps := flag "specularMaps", glossMaps := flag "glossMaps"
    bumpMaps := flag "bumpMaps", incandescenceMasks := flag "incandescenceMasks"
    copyTextures := flag "copyTextures", bones := flag "bones"
    skeletalAnim := flag "skeletalAnim", bakeAnimations := flag "bakeAnimations"
    prettyOutput := flag "prettyOutput"
    influencesPerVertex := none, startFrame := none, endFrame := none
    stepFrame := none }

/-- The token list Python builds for a flag's trailing arguments:
`optionsString[optionsString.find(key):].split(' ')` (lines 81-82, 86-87);
`[]` when the flag is absent (in which case the code never reads it). -/
def argTokens (key : List Char) (s : List Char) : List (List Char) :=
  match findSub key s with
  | some i => splitChar ' ' (s.drop i)
  | none => []

/-- Whether the `k`-th token exists and parses as a Python int. -/
def numericArgOk (toks : List (List Char)) (k : Nat) : Bool :=
  match toks[k]? with
  | some t => (pyInt t).isSome
  | none => false

/-- The `if self.options["bones"]` block of `_parseOptions` (lines 80-83):
consume `bones <influencesPerVertex>`; a missing token is an `IndexError`,
a non-numeric one a `ValueError`. -/
def parseBones (s : List Char) (base : Options) : Except String Options :=
  match findSub ("bones".data) s with
  | some i => do
    let toks := splitChar ' ' (s.drop i)
    let t ← pyIndex toks 1
    let n ← pyIntE t
    pure { base with influencesPerVertex := some n }
  | none => pure base

/-- The `if self.options["bakeAnimations"]` block of `_parseOptions`
(lines 85-90): consume `bakeAnimations <startFrame> <endFrame> <stepFrame>`. -/
def parseBake (s : List Char) (o1 : Options) : Except String Options :=
  match findSub ("bakeAnimations".data) s with
  | some i => do
    let toks := splitChar ' ' (s.drop i)
    let n1 ← pyIntE (← pyIndex toks 1)
    let n2 ← pyIntE (← pyIndex toks 2)
    let n3 ← pyIntE (← pyIndex toks 3)
    pure { o1 with startFrame := some n1, endFrame := some n2,
                   stepFrame := some n3 }
  | none => pure o1

/-- `_parseOptions` (lines 75-90): build the flag dictionary, then consume
the trailing numeric arguments of `bones` and `bakeAnimations` when those
flags are enabled; a raised `IndexError`/`ValueError` aborts the export. -/
def parseOptions (s : List Char) : Except String Options := do
  let o1 ← parseBones s (baseOptions s)
  parseBake s o1

/-! ## Geometry exporter (lines 92-194) -/

/-- `_getVertices` (lines 132-133): world-space points flattened to
`[round(x,8), round(y,8), round(z,8), ...]`. -/
def getVertices : List Vec3 → List ℚ
  | [] => []
  | p :: rest =>
    pyRound p.x FLOAT_PRECISION :: pyRound p.y FLOAT_PRECISION ::
      pyRound p.z FLOAT_PRECISION :: getVertices rest

/-- `_exportUVs` (lines 183-188): interleave the `u` and `v` arrays, with no
rounding applied (`getUVs` values are appended as-is). -/
def exportUVs (us vs : List ℚ) : List ℚ :=
  (us.zip vs).flatMap (fun p => [p.1, p.2])

/-- The body of the three loops of `_exportNormals` (lines 172-181): a
vector list flattened with each component rounded. -/
def flattenRounded : List Vec3 → List ℚ
  | [] => []
  | v :: rest =>
    pyRound v.x FLOAT_PRECISION :: pyRound v.y FLOAT_PRECISION ::
      pyRound v.z FLOAT_PRECISION :: flattenRounded rest

/-- `_getTypeBitmask` (lines 190-194): bit 5 set when normals are enabled. -/
def getTypeBitmask (opts : Options) : Nat :=
  if opts.normals then 32 else 0

/-- The head of `_getMaterialIndex` (lines 116-126): with materials disabled
the shading-engine loop is skipped and `-1` is returned; otherwise the
host-resolved index is used. -/
def getMaterialIndex (opts : Options) (face : Face) : Int :=
  if opts.materials then face.materialIndex else -1

/-- `_exportFaceBitmask` (lines 156-170): bit 0 from the vertex count (quad
1 / triangle 0, anything else raises), bit 1 for material, bit 3 for UVs,
OR-ed with the type bitmask. -/
def exportFaceBitmask (opts : Options) (face : Face) (hasMaterial : Bool) :
    Except String Nat := do
  let base ←
    if face.vertices.length = 4 then pure 1
    else if face.vertices.length = 3 then pure 0
    else .error ("Invalid polygon vertex count " ++ toString face.vertices.length)
  let b1 := if hasMaterial then base ||| (1 <<< 1) else base
  let b2 := if opts.uvs ∧ face.hasUVs then b1 ||| (1 <<< 3) else b1
  pure (getTypeBitmask opts ||| b2)

/-- One iteration of the face loop of `_exportFaces` (lines 142-154): the
integers appended to `output['faces']` for one face — bitmask, the face's
(mesh-local) vertex indices, then optionally material index, UV indices,
normal indices. -/
def exportFace (opts : Options) (face : Face) : Except String (List Int) := do
  let materialIndex := getMaterialIndex opts face
  let hasMaterial := materialIndex ≠ -1
  let bm ← exportFaceBitmask opts face hasMaterial
  let l1 : List Int := (bm : Int) :: face.vertices.map Int.ofNat
  let l2 := if opts.materials ∧ hasMaterial then l1 ++ [materialIndex] else l1
  let l3 :=
    if opts.uvs ∧ face.hasUVs then l2 ++ face.uvIndices.map Int.ofNat
    else l2
  let l4 :=
    if opts.normals then l3 ++ face.normalIndices.map Int.ofNat
    else l3
  pure l4

/-- The face loop of `_exportFaces`, concatenating each face's record into
the flat `output['faces']` list. -/
def exportFaceList (opts : Options) : List Face → Except String (List Int)
  | [] => .ok []
  | f :: rest => do
    let l ← exportFace opts f
    let ls ← exportFaceList opts rest
    pure (l ++ ls)

/-- `_exportFaces` (lines 138-154). -/
def exportFaces (opts : Options) (mesh : Mesh) : Except String (List Int) :=
  exportFaceList opts mesh.faces

/-! ## Skeleton and skin exporter (lines 268-375) -/

/-- `_indexOfJoint` (lines 284-291): the dictionary built from
`enumerate(ls(type='joint'))` maps a name to the index of its *last*
occurrence (later dict entries overwrite earlier ones); a missing name
resolves to `-1`. -/
def indexOfJoint (joints : List Joint) (name : String) : Int :=
  match (joints.enum.filter (fun p => p.2.name = name)).getLast? with
  | some p => (p.1 : Int)
  | none => -1

/-- One iteration of the per-vertex weight loop of `_exportSkins`
(lines 349-363): `pairs` zips a vertex's weight row with the per-influence
joint indices; the weights with `weight > 0` are appended (weight and joint
index in step), then the capacity check runs, then zero padding brings the
count up to `influencesPerVertex`. -/
def exportSkinVertex (ipv : Int) (meshName : String)
    (pairs : List (ℚ × Int)) : Except String (List ℚ × List Int) :=
  let nz := pairs.filter (fun p => 0 < p.1)
  if ipv < (nz.length : Int) then
    .error ("More than " ++ toString ipv ++ " influences on a vertex in " ++
      meshName ++ ".")
  else
    .ok (nz.map Prod.fst ++ List.replicate (ipv - nz.length).toNat 0,
         nz.map Prod.snd ++ List.replicate (ipv - nz.length).toNat 0)

/-- The `for weights in skin.getWeights(mesh.vtx)` loop of `_exportSkins`:
each vertex's entries are appended to the shared `skinWeights` /
`skinIndices` lists in order. -/
def exportSkinRows (ipv : Int) (meshName : String) :
    List (List (ℚ × Int)) → Except String (List ℚ × List Int)
  | [] => .ok ([], [])
  | r :: rest => do
    let v ← exportSkinVertex ipv meshName r
    let vs ← exportSkinRows ipv meshName rest
    pure (v.1 ++ vs.1, v.2 ++ vs.2)

/-- `skin.getWeights(mesh.vtx)` for a given mesh of the cluster. -/
def skinWeightRowsFor (sk : Skin) (meshId : Nat) : List (List ℚ) :=
  match sk.weightRows.lookup meshId with
  | some rows => rows
  | none => []

/-- `_exportSkins` (lines 341-363): the first skin cluster listing the mesh
as output geometry supplies the weights; with no skin the lists stay empty.
`joints[i]` pairs positionally with `weights[i]`, modelled by zipping each
row with the influence objects' joint indices. -/
def exportSkins (sc : Scene) (ipv : Int) (mesh : Mesh) :
    Except String (List ℚ × List Int) :=
  match (sc.skins.filter (fun sk => sk.outputGeometry.contains mesh.id)).head? with
  | none => .ok ([], [])
  | some skin =>
    let jidx := skin.influenceNames.map (fun nm => indexOfJoint sc.joints nm)
    exportSkinRows ipv mesh.name
      ((skinWeightRowsFor skin mesh.id).map (fun row => row.zip jidx))

/-! ## Mesh selection and per-mesh export (lines 70-114, 365-375) -/

/-- `_allMeshes` (lines 70-73): meshes with at least one connection. -/
def allMeshes (sc : Scene) : List Mesh :=
  sc.meshes.filter (fun m => m.connectionsCount > 0)

/-- `_hasSkin` (lines 368-370). -/
def hasSkin (sc : Scene) (m : Mesh) : Bool :=
  (sc.skins.filter (fun sk => sk.outputGeometry.contains m.id)).length > 0

/-- `_meshesWithSkins` (lines 365-366). -/
def meshesWithSkins (sc : Scene) : List Mesh :=
  (allMeshes sc).filter (fun m => hasSkin sc m)

/-- The per-mesh `output` dictionary assembled by `_exportMesh`
(lines 98-114): each section present iff its flag is enabled. -/
structure MeshOut where
  vertices : Option (List ℚ)
  faces : Option (List Int)
  normals : Option (List ℚ)
  tangents : Option (List ℚ)
  binormals : Option (List ℚ)
  uvs : Option (List ℚ)
  skinWeights : Option (List ℚ)
  skinIndices : Option (List Int)
deriving DecidableEq, Repr

/-- `_exportMesh` (lines 98-114).  When `bones` is enabled
`self.options["influencesPerVertex"]` is always populated by
`_parseOptions`; the `getD 0` default is never the live branch on the
`write` path. -/
def exportMesh (sc : Scene) (opts : Options) (mesh : Mesh) :
    Except String MeshOut := do
  let faces ←
    if opts.faces then do pure (some (← exportFaces opts mesh))
    else pure none
  let skins ←
    if opts.bones then do
      pure (some (← exportSkins sc (opts.influencesPerVertex.getD 0) mesh))
    else pure none
  pure { vertices := if opts.vertices then some (getVertices mesh.points) else none
         faces := faces
         normals := if opts.normals then some (flattenRounded mesh.normals) else none
         tangents := if opts.normals then some (flattenRounded mesh.tangents) else none
         binormals := if opts.normals then some (flattenRounded mesh.binormals) else none
         uvs := if opts.uvs then some (exportUVs mesh.us mesh.vs) else none
         skinWeights := skins.map Prod.fst
         skinIndices := skins.map Prod.snd }

/-- The loop of `_exportMeshes` (lines 92-96) over a given mesh list. -/
def exportMeshList (sc : Scene) (opts : Options) :
    List Mesh → Except String (List MeshOut)
  | [] => .ok []
  | m :: rest => do
    let o ← exportMesh sc opts m
    let os ← exportMeshList sc opts rest
    pure (o :: os)

/-- `_exportMeshes` (lines 92-96): one output record per skinned mesh. -/
def exportMeshes (sc : Scene) (opts : Options) : Except String (List MeshOut) :=
  exportMeshList sc opts (meshesWithSkins sc)

/-! ## Bone, material and animation exporters (lines 196-339, 420-438) -/

/-- One entry of `self.bones` built by `_exportBones` (lines 268-282). -/
structure BoneOut where
  parent : Int
  name : String
  pos : List ℚ
  rotq : List ℚ
deriving DecidableEq, Repr

/-- `_exportBones` (lines 268-282): parent resolved by name through
`_indexOfJoint` (root joints get `-1`). -/
def exportBones (sc : Scene) : List BoneOut :=
  sc.joints.map (fun j =>
    { parent :=
        match j.parent with
        | some pname => indexOfJoint sc.joints pname
        | none => -1
      name := j.name
      pos := roundPos j.translation
      rotq := roundQuat (quatMul j.rotation j.orientation) })

/-- One record of `self.materials` built by `_exportMaterial`
(lines 200-215); the texture-map branches only merge additional
host-supplied keys and are outside every claim. -/
structure MaterialOut where
  dbgName : String
  blending : String
  colorDiffuse : List ℚ
  colorAmbient : List ℚ
  depthTest : Bool
  depthWrite : Bool
  shading : String
  transparency : ℚ
  transparent : Bool
  vertexColors : Bool
  colorSpecular : Option (List ℚ)
  specularCoef : Option ℚ
deriving DecidableEq, Repr

/-- `_exportMaterial` (lines 200-215). -/
def exportMaterial (mat : MaterialNode) : MaterialOut :=
  { dbgName := mat.name
    blending := "NormalBlending"
    colorDiffuse := mat.colorRgb.map (fun c => c * mat.diffuseCoeff)
    colorAmbient := mat.ambientRgb
    depthTest := true
    depthWrite := true
    shading := mat.shadingName
    transparency := mat.transparency
    transparent := mat.transparency ≠ 1
    vertexColors := false
    colorSpecular := if mat.isPhong then some mat.specularRgb else none
    specularCoef := if mat.isPhong then some mat.cosPower else none }

/-- `_exportMaterials` (lines 196-198). -/
def exportMaterials (sc : Scene) : List MaterialOut :=
  sc.lamberts.map exportMaterial

/-- `FramesPerSecond.MAYA_VALUES` (lines 421-429). -/
def mayaFpsValues : List (String × Int) :=
  [("game", 15), ("film", 24), ("pal", 25), ("ntsc", 30),
   ("show", 48), ("palf", 50), ("ntscf", 60)]

/-- `FramesPerSecond.value` (lines 434-438): table lookup, else
`int(filter(isdigit, s))`; the `ValueError` of a digit-free unknown name is
a host-input case outside every claim, modelled as 0. -/
def fpsValue (s : String) : Int :=
  match mayaFpsValues.lookup s with
  | some v => v
  | none => (pyInt (s.data.filter Char.isDigit)).getD 0

/-- One `keys` entry built by `_getCurrentKeyframe` (lines 324-333). -/
structure Key where
  time : ℚ
  pos : List ℚ
  rot : List ℚ
  scl : List ℚ
deriving DecidableEq, Repr

/-- `_getCurrentKeyframe` (lines 324-333): the joint's translation and
composed rotation at the current frame; `jointAt` supplies the host's pose
of the joint once playback reached `frame`. -/
def getCurrentKeyframe (jointAt : ℚ → Joint) (frame minTime frameRate : ℚ) :
    Key :=
  let j := jointAt frame
  { time := (frame - minTime) / frameRate
    pos := roundPos j.translation
    rot := roundQuat (quatMul j.rotation j.orientation)
    scl := [1, 1, 1] }

/-- The frame list of `_getKeyframes` (line 315):
`sorted(list(set(keyframe(joint) + [firstFrame, lastFrame])))`. -/
def sampledFrames (times : List ℚ) (firstFrame lastFrame : ℚ) : List ℚ :=
  List.insertionSort (fun a b => a ≤ b) ((times ++ [firstFrame, lastFrame]).dedup)

/-- `_getKeyframes` (lines 312-322). -/
def getKeyframes (jointAt : ℚ → Joint) (times : List ℚ)
    (minTime maxTime frameRate : ℚ) : List Key :=
  (sampledFrames times minTime maxTime).map
    (fun f => getCurrentKeyframe jointAt f minTime frameRate)

/-- One `hierarchy` entry of `_exportKeyframeAnimations` (lines 298-301). -/
structure HierarchyEntry where
  parent : Int
  keys : List Key
deriving DecidableEq, Repr

/-- The joint loop of `_exportKeyframeAnimations` (lines 295-302): `i`
starts at `-1`, each entry records the current `i` as its parent, and `i`
is incremented afterwards. -/
def hierarchyAux (sc : Scene) (frameRate : ℚ) :
    List Joint → Int → List HierarchyEntry
  | [], _ => []
  | j :: rest, i =>
    { parent := i
      keys := getKeyframes (fun _ => j) j.keyframeTimes sc.minTime sc.maxTime
        frameRate } :: hierarchyAux sc frameRate rest (i + 1)

/-- The single record appended to `self.animations` (lines 304-309). -/
structure AnimationOut where
  name : String
  length : ℚ
  fps : Int
  hierarchy : List HierarchyEntry
deriving DecidableEq, Repr

/-- `_exportKeyframeAnimations` (lines 293-309). -/
def exportKeyframeAnimations (sc : Scene) : AnimationOut :=
  let frameRate : ℚ := (fpsValue sc.timeUnit : ℚ)
  { name := "skeletalAction.001"
    length := (sc.maxTime - sc.minTime) / frameRate
    fps := 1
    hierarchy := hierarchyAux sc frameRate sc.joints (-1) }

/-! ## Document assembly and `write` (lines 28-68) -/

/-- The `output` dictionary of `write` (lines 52-62): `meshes` and
`materials` always present, `bones`/`influencesPerVertex` iff the bones
flag, `animations` iff the skeletalAnim flag. -/
structure Document where
  meshes : List MeshOut
  materials : List MaterialOut
  bones : Option (List BoneOut)
  influencesPerVertex : Option Int
  animations : Option (List AnimationOut)
deriving DecidableEq, Repr

/-- The body of `write` after option parsing (lines 32-62): materials, then
bones, then meshes, then keyframe animations, then document assembly.  The
host side effects on lines 42-43 (`select`, `GoToBindPose`) mutate host
state only and are not modelled. -/
def writeWithOptions (sc : Scene) (opts : Options) : Except String Document := do
  let materials := if opts.materials then exportMaterials sc else []
  let bones := if opts.bones then exportBones sc else []
  let meshes ← exportMeshes sc opts
  let animations :=
    if opts.skeletalAnim then [exportKeyframeAnimations sc] else []
  pure { meshes := meshes
         materials := materials
         bones := if opts.bones then some bones else none
         influencesPerVertex :=
           if opts.bones then opts.influencesPerVertex else none
         animations := if opts.skeletalAnim then some animations else none }

/-- `write` (lines 28-68): parse the option string first, then export; any
raised error propagates out of `write`. -/
def write (sc : Scene) (s : List Char) : Except String Document := do
  let opts ← parseOptions s
  writeWithOptions sc opts

/-- The document serialized to the output path, as a function of one export
run: `with file(path, 'w')` (lines 64-68) is the final statement of `write`,
executed only when every preceding step succeeded, so a file exists exactly
when `write` returned a document. -/
def writtenFile (sc : Scene) (s : List Char) : Option Document :=
  match write sc s with
  | .ok d => some d
  | .error _ => none

/-! ## Baked animation (spec-modelled) -/

/-- Modelled from the spec: positive-step half of Python's
`range(start, stop, step)`; the fuel argument bounds the iteration count. -/
def pyRangeUp (stop step : Int) : Int → Nat → List Int
  | _, 0 => []
  | start, fuel + 1 =>
    if start < stop then start :: pyRangeUp stop step (start + step) fuel
    else []

/-- Modelled from the spec: negative-step half of Python's `range`. -/
def pyRangeDown (stop step : Int) : Int → Nat → List Int
  | _, 0 => []
  | start, fuel + 1 =>
    if stop < start then start :: pyRangeDown stop step (start + step) fuel
    else []

/-- Modelled from the spec (§4.6): Python's `range(start, stop, step)` frame
sequence used by the baked-animation sampler, which is absent from src —
`_parseOptions` stores `startFrame`/`endFrame`/`stepFrame` (lines 85-90) but
no code under src consumes them. -/
def pyRange (start stop step : Int) : List Int :=
  if 0 < step then pyRangeUp stop step start (stop - start).toNat
  else if step < 0 then pyRangeDown stop step start (start - stop).toNat
  else []

/-- Modelled from the spec (§4.6): the baked/morph animation exporter,
absent from src.  For each frame of `range(start, end, step)` in order, the
host playback is moved to the frame and every vertex position across all
meshes is snapshotted into a morph target named `"frame_<N>"`; `snapshot`
stands for that per-frame host query. -/
def bakeAnimationTargets (start stop step : Int) (snapshot : Int → List ℚ) :
    List (String × List ℚ) :=
  (pyRange start stop step).map
    (fun f => ("frame_" ++ toString f, snapshot f))

/-! ## Theorems -/

/-- Claim C3: with bakeAnimations parameters startFrame=0, endFrame=10,
stepFrame=2, the sampled frame sequence is exactly [0, 2, 4, 6, 8] (end
exclusive, ascending), and the baked export emits exactly five morph
targets named frame_0 through frame_8 in that order, each pairing the
frame's name with the vertex snapshot taken at that frame. -/
theorem claim3_bakedFrameSequence (snapshot : Int → List ℚ) :
    pyRange 0 10 2 = [0, 2, 4, 6, 8] ∧
    bakeAnimationTargets 0 10 2 snapshot =
      [("frame_0", snapshot 0), ("frame_2", snapshot 2),
       ("frame_4", snapshot 4), ("frame_6", snapshot 6),
       ("frame_8", snapshot 8)] :=
  ⟨rfl, rfl⟩

/-- Claim C6: for every joint, the sampled keyframe time list is the
joint's existing keyframe times together with the playback range's first
and last frames, sorted ascending and with duplicates removed, so each
range endpoint appears exactly once even when no native keyframe lands
there. -/
theorem claim6_sampledFrames (ts : List ℚ) (a b : ℚ) :
    (sampledFrames ts a b).Sorted (fun x y => x ≤ y) ∧
    (sampledFrames ts a b).Nodup ∧
    (∀ x, x ∈ sampledFrames ts a b ↔ x ∈ ts ∨ x = a ∨ x = b) ∧
    (sampledFrames ts a b).count a = 1 ∧
    (sampledFrames ts a b).count b = 1 := by
  have hperm := List.perm_insertionSort (fun x y : ℚ => x ≤ y) ((ts ++ [a, b]).dedup)
  have hnd : (sampledFrames ts a b).Nodup :=
    (hperm.nodup_iff).2 (List.nodup_dedup _)
  have hmem : ∀ x, x ∈ sampledFrames ts a b ↔ x ∈ ts ∨ x = a ∨ x = b := by
    intro x
    unfold sampledFrames
    rw [hperm.mem_iff, List.mem_dedup]
    simp
  refine ⟨List.sorted_insertionSort _ _, hnd, hmem, ?_, ?_⟩
  · exact List.count_eq_one_of_mem hnd ((hmem a).2 (Or.inr (Or.inl rfl)))
  · exact List.count_eq_one_of_mem hnd ((hmem b).2 (Or.inr (Or.inr rfl)))

/-- The parents recorded by the joint loop of `_exportKeyframeAnimations`
are determined by the running counter alone. -/
theorem hierarchyAux_parents (sc : Scene) (fr : ℚ) (joints : List Joint)
    (i : Int) :
    (hierarchyAux sc fr joints i).map (fun e => e.parent) =
      (List.range joints.length).map (fun k : Nat => i + (k : Int)) := by
  induction joints generalizing i with
  | nil => simp [hierarchyAux]
  | cons j rest ih =>
    simp only [hierarchyAux, List.map_cons, List.length_cons,
      List.range_succ_eq_map, List.map_map, ih]
    congr 1
    · simp
    · apply List.map_congr_left
      intro a _
      simp only [Function.comp_apply]
      push_cast
      ring

/-- Claim C10: in the emitted skeletal animation, the k-th hierarchy entry
has parent index k−1 (−1 for the first), determined solely by traversal
position — the parent list depends only on the number of joints, not on
their actual parent relationships. -/
theorem claim10_hierarchyParentIsPosition (sc : Scene) :
    ((exportKeyframeAnimations sc).hierarchy).map (fun e => e.parent) =
      (List.range sc.joints.length).map (fun k : Nat => (k : Int) - 1) := by
  unfold exportKeyframeAnimations
  rw [hierarchyAux_parents]
  apply List.map_congr_left
  intro a _
  ring

/-- Claim C4: in every successfully encoded face bitmask, bit 0 is 1 iff
the face has exactly 4 vertices and 0 iff it has exactly 3; any other
vertex count makes the encoder raise the fatal "Invalid polygon vertex
count" error. -/
theorem claim4_faceBitmaskBit0 (opts : Options) (face : Face) (hm : Bool) :
    (∀ n, exportFaceBitmask opts face hm = .ok n →
        ((n.testBit 0 = true ↔ face.vertices.length = 4) ∧
         (n.testBit 0 = false ↔ face.vertices.length = 3))) ∧
    (face.vertices.length ≠ 3 → face.vertices.length ≠ 4 →
        exportFaceBitmask opts face hm =
          .error ("Invalid polygon vertex count " ++
            toString face.vertices.length)) := by
  constructor
  · intro n h
    unfold exportFaceBitmask getTypeBitmask at h
    by_cases h4 : face.vertices.length = 4
    · simp only [h4, reduceIte] at h
      cases hn : opts.normals <;> cases hm <;>
        by_cases huv : opts.uvs = true ∧ face.hasUVs = true <;>
        simp only [hn, huv, reduceIte, pure, Except.pure, Except.bind, bind,
          if_pos, if_neg] at h <;>
        injection h with h2 <;> subst h2 <;> simp only [h4] <;> decide
    · by_cases h3 : face.vertices.length = 3
      · simp only [h3, h4, reduceIte] at h
        cases hn : opts.normals <;> cases hm <;>
          by_cases huv : opts.uvs = true ∧ face.hasUVs = true <;>
          simp only [hn, huv, reduceIte, pure, Except.pure, Except.bind, bind,
            if_pos, if_neg] at h <;>
          injection h with h2 <;> subst h2 <;> simp only [h3] <;> decide
      · simp only [h3, h4, reduceIte] at h
        simp [Except.bind, bind] at h
  · intro h3 h4
    unfold exportFaceBitmask getTypeBitmask
    simp [h3, h4]

/-- An `Options` value with every flag disabled and no numeric parameters,
as `_parseOptions` yields for an option string enabling nothing. -/
def optsNone : Options :=
  { vertices := false, normals := false, colors := false, uvs := false
    faces := false, materials := false, diffuseMaps := false
    specularMaps := false, glossMaps := false, bumpMaps := false
    incandescenceMasks := false, copyTextures := false, bones := false
    skeletalAnim := false, bakeAnimations := false, prettyOutput := false
    influencesPerVertex := none, startFrame := none, endFrame := none
    stepFrame := none }

/-- A quad face with no UVs, normals or material. -/
def demoFaceQuad : Face :=
  { vertices := [0, 1, 2, 3], hasUVs := false, uvIndices := []
    normalIndices := [], materialIndex := -1 }

/-- A five-sided face, unsupported by the exporter. -/
def demoFacePenta : Face :=
  { vertices := [0, 1, 2, 3, 4], hasUVs := false, uvIndices := []
    normalIndices := [], materialIndex := -1 }

/-- Witness for C4: a concrete quad encodes with bit 0 set, and a concrete
pentagon raises the error. -/
theorem claim4_faceBitmaskBit0_witness :
    ((1 : Nat).testBit 0 = true ↔ demoFaceQuad.vertices.length = 4) ∧
    exportFaceBitmask optsNone demoFacePenta false =
      .error ("Invalid polygon vertex count " ++
        toString demoFacePenta.vertices.length) := by
  constructor
  · exact ((claim4_faceBitmaskBit0 optsNone demoFaceQuad false).1 1 (by rfl)).1
  · exact (claim4_faceBitmaskBit0 optsNone demoFacePenta false).2
      (by decide) (by decide)

/-- The non-zero-weight entries of one vertex's influence row (the
`weights[i] > 0` test on line 353). -/
def nzRow (r : List (ℚ × Int)) : List (ℚ × Int) :=
  r.filter (fun p => 0 < p.1)

/-- Success of the per-vertex skin loop: each vertex contributes its
non-zero entries followed by zero padding. -/
theorem skinRowsOk (ipv : Int) (nm : String) (rows : List (List (ℚ × Int)))
    (hall : ∀ r ∈ rows, ((nzRow r).length : Int) ≤ ipv) :
    exportSkinRows ipv nm rows =
      .ok (rows.flatMap (fun r => (nzRow r).map Prod.fst ++
             List.replicate (ipv - (nzRow r).length).toNat 0),
           rows.flatMap (fun r => (nzRow r).map Prod.snd ++
             List.replicate (ipv - (nzRow r).length).toNat 0)) := by
  induction rows with
  | nil => simp [exportSkinRows]
  | cons r rest ih =>
    have hr : ((nzRow r).length : Int) ≤ ipv := hall r (by simp)
    have hrest := ih (fun x hx => hall x (by simp [hx]))
    unfold exportSkinRows exportSkinVertex
    rw [if_neg (by unfold nzRow at hr; omega)]
    simp only [Except.bind, bind, hrest, nzRow]
    simp [nzRow, pure, Except.pure]

/-- Each vertex whose non-zero count fits contributes exactly
`influencesPerVertex` entries. -/
theorem skinRowsLen {α : Type} (f : ℚ × Int → α) (z : α) (ipv : Int)
    (rows : List (List (ℚ × Int)))
    (hall : ∀ r ∈ rows, ((nzRow r).length : Int) ≤ ipv) :
    (rows.flatMap (fun r => (nzRow r).map f ++
       List.replicate (ipv - (nzRow r).length).toNat z)).length =
      rows.length * ipv.toNat := by
  induction rows with
  | nil => simp
  | cons r rest ih =>
    have hr : ((nzRow r).length : Int) ≤ ipv := hall r (by simp)
    have hrest := ih (fun x hx => hall x (by simp [hx]))
    simp only [List.flatMap_cons, List.length_append, hrest, List.length_cons,
      List.length_map, List.length_replicate]
    rw [Nat.succ_mul]
    generalize rest.length * ipv.toNat = a
    omega

/-- Any vertex whose non-zero count exceeds the capacity aborts the skin
export with the over-capacity message. -/
theorem skinRowsErr (ipv : Int) (nm : String) (rows : List (List (ℚ × Int)))
    (hex : ∃ r ∈ rows, ipv < ((nzRow r).length : Int)) :
    exportSkinRows ipv nm rows =
      .error ("More than " ++ toString ipv ++ " influences on a vertex in " ++
        nm ++ ".") := by
  induction rows with
  | nil => simp at hex
  | cons r rest ih =>
    by_cases hr : ipv < ((nzRow r).length : Int)
    · unfold exportSkinRows exportSkinVertex
      rw [if_pos (by unfold nzRow at hr; omega)]
      rfl
    · rcases hex with ⟨x, hx, hxlt⟩
      rcases List.mem_cons.1 hx with h | h
      · exact absurd (h ▸ hxlt) hr
      · have := ih ⟨x, h, hxlt⟩
        unfold exportSkinRows exportSkinVertex
        rw [if_neg (by unfold nzRow at hr; omega)]
        simp [Except.bind, bind, this]

/-- Claim C5: if every vertex's count of non-zero influences fits within
influencesPerVertex, the skin export succeeds and emits exactly
influencesPerVertex weight and index entries per vertex — the non-zero
entries first, then (index 0, weight 0) padding; if some vertex's count
exceeds the capacity, the export fails with the over-capacity error naming
the offending mesh. -/
theorem claim5_skinPaddingAndCapacity (ipv : Int) (nm : String)
    (rows : List (List (ℚ × Int))) :
    ((∀ r ∈ rows, ((nzRow r).length : Int) ≤ ipv) →
      ∃ w ix, exportSkinRows ipv nm rows = .ok (w, ix) ∧
        w = rows.flatMap (fun r => (nzRow r).map Prod.fst ++
              List.replicate (ipv - (nzRow r).length).toNat 0) ∧
        ix = rows.flatMap (fun r => (nzRow r).map Prod.snd ++
              List.replicate (ipv - (nzRow r).length).toNat 0) ∧
        w.length = rows.length * ipv.toNat ∧
        ix.length = rows.length * ipv.toNat) ∧
    ((∃ r ∈ rows, ipv < ((nzRow r).length : Int)) →
      exportSkinRows ipv nm rows =
        .error ("More than " ++ toString ipv ++
          " influences on a vertex in " ++ nm ++ ".")) := by
  constructor
  · intro hall
    exact ⟨_, _, skinRowsOk ipv nm rows hall, rfl, rfl,
      skinRowsLen Prod.fst 0 ipv rows hall, skinRowsLen Prod.snd 0 ipv rows hall⟩
  · exact skinRowsErr ipv nm rows

/-- Two weight rows that fit a capacity of 2: one influence on the first
vertex, two on the second. -/
def demoRowsOk : List (List (ℚ × Int)) :=
  [[(1, 0), (0, 3)], [(1, 1), (1, 2), (0, 0)]]

/-- A weight row with two non-zero influences, over a capacity of 1. -/
def demoRowsBad : List (List (ℚ × Int)) :=
  [[(1, 0), (1, 1)]]

/-- Witness for C5: the in-capacity rows export padded to two entries per
vertex, and the over-capacity row raises the error naming the mesh. -/
theorem claim5_skinPaddingAndCapacity_witness :
    (∃ w ix, exportSkinRows 2 "meshA" demoRowsOk = .ok (w, ix) ∧
      w = demoRowsOk.flatMap (fun r => (nzRow r).map Prod.fst ++
            List.replicate ((2 : Int) - (nzRow r).length).toNat 0) ∧
      ix = demoRowsOk.flatMap (fun r => (nzRow r).map Prod.snd ++
            List.replicate ((2 : Int) - (nzRow r).length).toNat 0) ∧
      w.length = demoRowsOk.length * (2 : Int).toNat ∧
      ix.length = demoRowsOk.length * (2 : Int).toNat) ∧
    exportSkinRows 1 "meshA" demoRowsBad =
      .error ("More than " ++ toString (1 : Int) ++
        " influences on a vertex in " ++ "meshA" ++ ".") :=
  ⟨(claim5_skinPaddingAndCapacity 2 "meshA" demoRowsOk).1 (by decide),
   (claim5_skinPaddingAndCapacity 1 "meshA" demoRowsBad).2 (by decide)⟩

/-- `_exportMeshes` produces exactly one output record per selected mesh. -/
theorem exportMeshListLen (sc : Scene) (opts : Options) (l : List Mesh)
    (out : List MeshOut) (h : exportMeshList sc opts l = .ok out) :
    out.length = l.length := by
  induction l generalizing out with
  | nil =>
    simp only [exportMeshList] at h
    injection h with h2
    subst h2
    rfl
  | cons m rest ih =>
    unfold exportMeshList at h
    cases ho : exportMesh sc opts m with
    | error e => rw [ho] at h; simp [Except.bind, bind] at h
    | ok o =>
      rw [ho] at h
      cases hos : exportMeshList sc opts rest with
      | error e => rw [hos] at h; simp [Except.bind, bind] at h
      | ok os =>
        rw [hos] at h
        simp [Except.bind, bind, pure, Except.pure] at h
        simp [← h, List.length_cons, ih os hos]

/-- Claim C9: a mesh is selected for export iff it has at least one
connection and at least one skin cluster lists it as output geometry; the
output meshes array holds exactly one record per selected mesh, so a mesh
with no skin binding contributes nothing to the export. -/
theorem claim9_skinlessMeshesOmitted (sc : Scene) (opts : Options) (m : Mesh) :
    (m ∈ meshesWithSkins sc ↔
      m ∈ sc.meshes ∧ 0 < m.connectionsCount ∧
        ∃ sk ∈ sc.skins, m.id ∈ sk.outputGeometry) ∧
    (∀ out, exportMeshes sc opts = .ok out →
      out.length = (meshesWithSkins sc).length) := by
  constructor
  · unfold meshesWithSkins allMeshes hasSkin
    simp only [List.mem_filter, decide_eq_true_eq, List.length_pos,
      ne_eq, List.filter_eq_nil_iff, List.elem_iff]
    constructor
    · rintro ⟨⟨hm, hc⟩, hs⟩
      push_neg at hs
      rcases hs with ⟨sk, hsk, hmem⟩
      exact ⟨hm, by simpa using hc, sk, hsk, by simpa using hmem⟩
    · rintro ⟨hm, hc, sk, hsk, hmem⟩
      refine ⟨⟨hm, by simpa using hc⟩, ?_⟩
      intro hnil
      exact (hnil sk hsk) (by simp [List.elem_iff, hmem])
  · intro out h
    exact exportMeshListLen sc opts (meshesWithSkins sc) out h

/-- A connected mesh (id 0) with no geometry. -/
def demoMeshA : Mesh :=
  { id := 0, name := "meshA", connectionsCount := 1, points := [], faces := []
    normals := [], binormals := [], tangents := [], us := [], vs := [] }

/-- A connected mesh (id 1) that no skin cluster lists. -/
def demoMeshB : Mesh :=
  { id := 1, name := "meshB", connectionsCount := 1, points := [], faces := []
    normals := [], binormals := [], tangents := [], us := [], vs := [] }

/-- A scene with two connected meshes, only the first skinned. -/
def demoSceneMix : Scene :=
  { meshes := [demoMeshA, demoMeshB]
    skins := [{ outputGeometry := [0], influenceNames := [], weightRows := [] }]
    joints := [], lamberts := [], minTime := 0, maxTime := 0
    timeUnit := "film" }

/-- The per-mesh record with no section enabled. -/
def demoMeshOutEmpty : MeshOut :=
  { vertices := none, faces := none, normals := none, tangents := none
    binormals := none, uvs := none, skinWeights := none, skinIndices := none }

/-- Witness for C9: the skinless mesh of the two-mesh scene is omitted, and
the output holds exactly one record (for the skinned mesh). -/
theorem claim9_skinlessMeshesOmitted_witness :
    demoMeshB ∉ meshesWithSkins demoSceneMix ∧
    [demoMeshOutEmpty].length = (meshesWithSkins demoSceneMix).length := by
  constructor
  · intro hmem
    exact absurd
      ((claim9_skinlessMeshesOmitted demoSceneMix optsNone demoMeshB).1.1 hmem)
      (by decide)
  · exact (claim9_skinlessMeshesOmitted demoSceneMix optsNone demoMeshB).2
      [demoMeshOutEmpty] (by rfl)

/-- A parse error surfaces from `write` before any scene data is touched:
the resulting error is the parse error itself, for every scene. -/
theorem write_of_parse_error (sc : Scene) (s : List Char) (e : String)
    (h : parseOptions s = .error e) : write sc s = .error e := by
  unfold write
  rw [h]
  rfl

/-- A missing or non-numeric `bones` argument makes the bones block of
`_parseOptions` raise. -/
theorem parseBones_broken (s : List Char) (i : Nat)
    (hb : findSub ("bones".data) s = some i)
    (hn : numericArgOk (splitChar ' ' (s.drop i)) 1 = false) (base : Options) :
    ∃ e, parseBones s base = .error e := by
  unfold parseBones
  rw [hb]
  cases hti : (splitChar ' ' (s.drop i))[1]? with
  | none =>
    exact ⟨"IndexError: list index out of range",
      by simp [pyIndex, hti, Except.bind, bind]⟩
  | some t =>
    cases hpi : pyInt t with
    | none =>
      exact ⟨"ValueError: invalid literal for int(): " ++ String.mk t,
        by simp [pyIndex, hti, pyIntE, hpi, Except.bind, bind]⟩
    | some n => simp [numericArgOk, hti, hpi] at hn

/-- A missing or non-numeric `bakeAnimations` argument makes the bake block
of `_parseOptions` raise. -/
theorem parseBake_broken (s : List Char) (i : Nat)
    (hb : findSub ("bakeAnimations".data) s = some i)
    (hn : (numericArgOk (splitChar ' ' (s.drop i)) 1 &&
           numericArgOk (splitChar ' ' (s.drop i)) 2 &&
           numericArgOk (splitChar ' ' (s.drop i)) 3) = false) (o1 : Options) :
    ∃ e, parseBake s o1 = .error e := by
  unfold parseBake
  rw [hb]
  cases ht1 : (splitChar ' ' (s.drop i))[1]? with
  | none =>
    exact ⟨"IndexError: list index out of range",
      by simp [pyIndex, ht1, Except.bind, bind]⟩
  | some t1 =>
    cases hp1 : pyInt t1 with
    | none =>
      exact ⟨"ValueError: invalid literal for int(): " ++ String.mk t1,
        by simp [pyIndex, ht1, pyIntE, hp1, Except.bind, bind]⟩
    | some n1 =>
      cases ht2 : (splitChar ' ' (s.drop i))[2]? with
      | none =>
        exact ⟨"IndexError: list index out of range",
          by simp [pyIndex, ht1, pyIntE, hp1, ht2, Except.bind, bind]⟩
      | some t2 =>
        cases hp2 : pyInt t2 with
        | none =>
          exact ⟨"ValueError: invalid literal for int(): " ++ String.mk t2,
            by simp [pyIndex, ht1, pyIntE, hp1, ht2, hp2, Except.bind, bind]⟩
        | some n2 =>
          cases ht3 : (splitChar ' ' (s.drop i))[3]? with
          | none =>
            exact ⟨"IndexError: list index out of range",
              by simp [pyIndex, ht1, pyIntE, hp1, ht2, hp2, ht3,
                Except.bind, bind]⟩
          | some t3 =>
            cases hp3 : pyInt t3 with
            | none =>
              exact ⟨"ValueError: invalid literal for int(): " ++ String.mk t3,
                by simp [pyIndex, ht1, pyIntE, hp1, ht2, hp2, ht3, hp3,
                  Except.bind, bind]⟩
            | some n3 =>
              simp [numericArgOk, ht1, hp1, ht2, hp2, ht3, hp3] at hn

/-- Claim C7: if the bones flag appears without a following numeric
argument, or the bakeAnimations flag appears without three following
numeric arguments, option parsing raises, and `write` propagates that very
error for every scene — i.e. before any scene traversal. -/
theorem claim7_configArgErrors (s : List Char) :
    (∀ i, findSub ("bones".data) s = some i →
      numericArgOk (splitChar ' ' (s.drop i)) 1 = false →
      ∃ e, parseOptions s = .error e ∧ ∀ sc, write sc s = .error e) ∧
    (∀ i, findSub ("bakeAnimations".data) s = some i →
      (numericArgOk (splitChar ' ' (s.drop i)) 1 &&
       numericArgOk (splitChar ' ' (s.drop i)) 2 &&
       numericArgOk (splitChar ' ' (s.drop i)) 3) = false →
      ∃ e, parseOptions s = .error e ∧ ∀ sc, write sc s = .error e) := by
  constructor
  · intro i hb hn
    rcases parseBones_broken s i hb hn (baseOptions s) with ⟨e, he⟩
    have hp : parseOptions s = .error e := by
      unfold parseOptions
      rw [he]
      rfl
    exact ⟨e, hp, fun sc => write_of_parse_error sc s e hp⟩
  · intro i hb hn
    cases hbp : parseBones s (baseOptions s) with
    | error e =>
      have hp : parseOptions s = .error e := by
        unfold parseOptions
        rw [hbp]
        rfl
      exact ⟨e, hp, fun sc => write_of_parse_error sc s e hp⟩
    | ok o1 =>
      rcases parseBake_broken s i hb hn o1 with ⟨e, he⟩
      have hp : parseOptions s = .error e := by
        unfold parseOptions
        rw [hbp]
        simpa [Except.bind, bind] using he
      exact ⟨e, hp, fun sc => write_of_parse_error sc s e hp⟩

/-- Witness for C7: the option strings "bones" (argument missing) and
"bakeAnimations 0 x 2" (second argument non-numeric) both abort parsing,
and `write` on a concrete scene fails with the same error. -/
theorem claim7_configArgErrors_witness :
    (∃ e, parseOptions ("bones".data) = .error e ∧
      write demoSceneMix ("bones".data) = .error e) ∧
    (∃ e, parseOptions ("bakeAnimations 0 x 2".data) = .error e ∧
      write demoSceneMix ("bakeAnimations 0 x 2".data) = .error e) := by
  constructor
  · rcases (claim7_configArgErrors ("bones".data)).1 0 (by decide) (by decide)
      with ⟨e, hp, hw⟩
    exact ⟨e, hp, hw demoSceneMix⟩
  · rcases (claim7_configArgErrors ("bakeAnimations 0 x 2".data)).2 0
      (by decide) (by decide) with ⟨e, hp, hw⟩
    exact ⟨e, hp, hw demoSceneMix⟩

/-- A face bitmask only encodes successfully for triangles and quads. -/
theorem bitmask_ok_count (opts : Options) (f : Face) (hm : Bool) (n : Nat)
    (h : exportFaceBitmask opts f hm = .ok n) :
    f.vertices.length = 3 ∨ f.vertices.length = 4 := by
  unfold exportFaceBitmask at h
  by_cases h4 : f.vertices.length = 4
  · exact Or.inr h4
  · by_cases h3 : f.vertices.length = 3
    · exact Or.inl h3
    · simp only [h3, h4, reduceIte] at h
      simp [Except.bind, bind] at h

/-- A successfully exported face record implies its bitmask encoded. -/
theorem exportFace_ok_bitmask (opts : Options) (f : Face) (l : List Int)
    (h : exportFace opts f = .ok l) :
    ∃ n, exportFaceBitmask opts f (decide (getMaterialIndex opts f ≠ -1)) =
      .ok n := by
  cases hb : exportFaceBitmask opts f (decide (getMaterialIndex opts f ≠ -1)) with
  | error e =>
    simp only [exportFace, hb, Except.bind, bind] at h
    exact absurd h (by simp)
  | ok n => exact ⟨n, rfl⟩

/-- A successful face loop implies every face's record succeeded. -/
theorem exportFaceList_ok_mem (opts : Options) (fs : List Face)
    (out : List Int) (h : exportFaceList opts fs = .ok out) :
    ∀ f ∈ fs, ∃ l, exportFace opts f = .ok l := by
  induction fs generalizing out with
  | nil => intro f hf; simp at hf
  | cons g rest ih =>
    intro f hf
    unfold exportFaceList at h
    cases hg : exportFace opts g with
    | error e => rw [hg] at h; simp [Except.bind, bind] at h
    | ok l0 =>
      rw [hg] at h
      cases hrest : exportFaceList opts rest with
      | error e => rw [hrest] at h; simp [Except.bind, bind] at h
      | ok ls =>
        rcases List.mem_cons.1 hf with rfl | hf2
        · exact ⟨l0, hg⟩
        · exact ih ls hrest f hf2

/-- A successful mesh loop implies every mesh's export succeeded. -/
theorem exportMeshList_ok_mem (sc : Scene) (opts : Options) (l : List Mesh)
    (out : List MeshOut) (h : exportMeshList sc opts l = .ok out) :
    ∀ m ∈ l, ∃ o, exportMesh sc opts m = .ok o := by
  induction l generalizing out with
  | nil => intro m hm; simp at hm
  | cons m0 rest ih =>
    intro m hm
    unfold exportMeshList at h
    cases hm0 : exportMesh sc opts m0 with
    | error e => rw [hm0] at h; simp [Except.bind, bind] at h
    | ok o =>
      rw [hm0] at h
      cases hrest : exportMeshList sc opts rest with
      | error e => rw [hrest] at h; simp [Except.bind, bind] at h
      | ok os =>
        rcases List.mem_cons.1 hm with rfl | hm2
        · exact ⟨o, hm0⟩
        · exact ih os hrest m hm2

/-- A successful per-mesh export implies its enabled face and skin stages
succeeded. -/
theorem exportMesh_ok_parts (sc : Scene) (opts : Options) (m : Mesh)
    (o : MeshOut) (h : exportMesh sc opts m = .ok o) :
    (opts.faces = true → ∃ fl, exportFaces opts m = .ok fl) ∧
    (opts.bones = true →
      ∃ p, exportSkins sc (opts.influencesPerVertex.getD 0) m = .ok p) := by
  constructor
  · intro hf
    cases hfs : exportFaces opts m with
    | error e =>
      simp only [exportMesh, hf, reduceIte, hfs, Except.bind, bind] at h
      exact absurd h (by simp)
    | ok fl => exact ⟨fl, rfl⟩
  · intro hb
    cases hsk : exportSkins sc (opts.influencesPerVertex.getD 0) m with
    | error e =>
      by_cases hf : opts.faces = true
      · cases hfs : exportFaces opts m with
        | error e2 =>
          simp only [exportMesh, hf, reduceIte, hfs, Except.bind, bind] at h
          exact absurd h (by simp)
        | ok fl =>
          simp [exportMesh, hf, hb, hfs, hsk, Except.bind, bind, pure,
            Except.pure] at h
      · have hf2 : opts.faces = false := by simpa using hf
        simp [exportMesh, hf2, hb, hsk, Except.bind, bind, pure,
          Except.pure] at h
    | ok p => exact ⟨p, rfl⟩

/-- A successful document assembly implies the mesh stage succeeded. -/
theorem writeWithOptions_ok_meshes (sc : Scene) (opts : Options)
    (d : Document) (h : writeWithOptions sc opts = .ok d) :
    ∃ out, exportMeshes sc opts = .ok out := by
  cases hms : exportMeshes sc opts with
  | error e =>
    simp only [writeWithOptions, hms, Except.bind, bind] at h
    exact absurd h (by simp)
  | ok out => exact ⟨out, rfl⟩

/-- Claim C8: serialization to the output path happens only after the whole
export succeeded.  If `write` raises, no document reaches the file; and
whenever a document did reach the file, option parsing succeeded and — with
faces enabled — every face of every exported mesh had 3 or 4 vertices, and
— with bones enabled — every exported mesh's skin stage succeeded, so no
configuration, unsupported-geometry or skin-capacity error occurred. -/
theorem claim8_noPartialFileOnError (sc : Scene) (s : List Char) :
    (∀ e, write sc s = .error e → writtenFile sc s = none) ∧
    (∀ d, writtenFile sc s = some d →
      ∃ opts, parseOptions s = .ok opts ∧
        (opts.faces = true →
          ∀ m ∈ meshesWithSkins sc, ∀ f ∈ m.faces,
            f.vertices.length = 3 ∨ f.vertices.length = 4) ∧
        (opts.bones = true →
          ∀ m ∈ meshesWithSkins sc,
            ∃ p, exportSkins sc (opts.influencesPerVertex.getD 0) m =
              .ok p)) := by
  constructor
  · intro e he
    unfold writtenFile
    rw [he]
  · intro d hd
    unfold writtenFile at hd
    cases hw : write sc s with
    | error e => rw [hw] at hd; simp at hd
    | ok d2 =>
      unfold write at hw
      cases hp : parseOptions s with
      | error e => rw [hp] at hw; simp [Except.bind, bind] at hw
      | ok opts =>
        rw [hp] at hw
        simp only [Except.bind, bind] at hw
        have hmeshes := writeWithOptions_ok_meshes sc opts d2 hw
        rcases hmeshes with ⟨out, hout⟩
        unfold exportMeshes at hout
        refine ⟨opts, rfl, ?_, ?_⟩
        · intro hf m hm f hfm
          rcases exportMeshList_ok_mem sc opts (meshesWithSkins sc) out hout
            m hm with ⟨o, ho⟩
          rcases (exportMesh_ok_parts sc opts m o ho).1 hf with ⟨fl, hfl⟩
          unfold exportFaces at hfl
          rcases exportFaceList_ok_mem opts m.faces fl hfl f hfm with ⟨l, hl⟩
          rcases exportFace_ok_bitmask opts f l hl with ⟨n, hn⟩
          exact bitmask_ok_count opts f _ n hn
        · intro hb m hm
          rcases exportMeshList_ok_mem sc opts (meshesWithSkins sc) out hout
            m hm with ⟨o, ho⟩
          exact (exportMesh_ok_parts sc opts m o ho).2 hb

/-- A connected, skinned mesh carrying an unsupported five-sided face. -/
def demoMeshBad : Mesh :=
  { id := 0, name := "meshBad", connectionsCount := 1, points := []
    faces := [demoFacePenta], normals := [], binormals := [], tangents := []
    us := [], vs := [] }

/-- A scene whose only mesh carries the unsupported face. -/
def demoSceneBad : Scene :=
  { meshes := [demoMeshBad]
    skins := [{ outputGeometry := [0], influenceNames := [], weightRows := [] }]
    joints := [], lamberts := [], minTime := 0, maxTime := 0
    timeUnit := "film" }

/-- Witness for C8: the export of the scene with a five-sided face raises
and leaves no file, while a clean export does reach the file with all
vertex counts in range. -/
theorem claim8_noPartialFileOnError_witness :
    writtenFile demoSceneBad ("faces".data) = none ∧
    (∃ opts, parseOptions ("faces".data) = .ok opts ∧
      (opts.faces = true →
        ∀ m ∈ meshesWithSkins demoSceneMix, ∀ f ∈ m.faces,
          f.vertices.length = 3 ∨ f.vertices.length = 4) ∧
      (opts.bones = true →
        ∀ m ∈ meshesWithSkins demoSceneMix,
          ∃ p, exportSkins demoSceneMix (opts.influencesPerVertex.getD 0) m =
            .ok p)) := by
  constructor
  · exact (claim8_noPartialFileOnError demoSceneBad ("faces".data)).1
      ("Invalid polygon vertex count 5") (by rfl)
  · exact (claim8_noPartialFileOnError demoSceneMix ("faces".data)).2
      { meshes := [{ demoMeshOutEmpty with faces := some [] }]
        materials := [], bones := none, influencesPerVertex := none
        animations := none } (by rfl)

/-- A triangle face with local vertex indices 0, 1, 2 and no extras. -/
def demoFaceTri : Face :=
  { vertices := [0, 1, 2], hasUVs := false, uvIndices := []
    normalIndices := [], materialIndex := -1 }

/-- First of two identical skinned triangle meshes (id 0, three points). -/
def demoMeshTri0 : Mesh :=
  { id := 0, name := "tri0", connectionsCount := 1
    points := [⟨0, 0, 0⟩, ⟨1, 0, 0⟩, ⟨0, 1, 0⟩], faces := [demoFaceTri]
    normals := [], binormals := [], tangents := [], us := [], vs := [] }

/-- Second of two identical skinned triangle meshes (id 1, three points). -/
def demoMeshTri1 : Mesh :=
  { id := 1, name := "tri1", connectionsCount := 1
    points := [⟨0, 0, 1⟩, ⟨1, 0, 1⟩, ⟨0, 1, 1⟩], faces := [demoFaceTri]
    normals := [], binormals := [], tangents := [], us := [], vs := [] }

/-- A two-mesh scene, both meshes connected and skinned. -/
def demoSceneTwo : Scene :=
  { meshes := [demoMeshTri0, demoMeshTri1]
    skins := [{ outputGeometry := [0, 1], influenceNames := [], weightRows := [] }]
    joints := [], lamberts := [], minTime := 0, maxTime := 0
    timeUnit := "film" }

/-- Options with only the faces component enabled. -/
def demoOptsFaces : Options :=
  { optsNone with faces := true }

/-- Claim C1 counterexample: exporting two meshes with faces enabled, the
second mesh's face record carries the same local vertex indices 0, 1, 2 as
the first — they are not offset by the first mesh's vertex count 3, so the
claimed global-offset invariant fails at this input. -/
theorem claim1_counterexample :
    exportMeshes demoSceneTwo demoOptsFaces =
      .ok [{ demoMeshOutEmpty with faces := some [0, 0, 1, 2] },
           { demoMeshOutEmpty with faces := some [0, 0, 1, 2] }] ∧
    demoMeshTri0.points.length = 3 ∧
    ¬ (∀ i ∈ ([0, 0, 1, 2] : List Int).drop 1,
        (demoMeshTri0.points.length : Int) ≤ i) := by
  refine ⟨by rfl, by rfl, by decide⟩

/-- Claim C1 as amended: the vertex indices emitted in each face record are
the mesh-local indices, unchanged — the record is the bitmask followed by
`face.getVertices()` verbatim (then any material/UV/normal extras), with no
offset by previously processed meshes' vertex counts; each mesh's faces
live in that mesh's own output record. -/
theorem claim1_amended_localFaceIndices (opts : Options) (face : Face)
    (l : List Int) (h : exportFace opts face = .ok l) :
    ∃ bm rest, l = (bm : Int) :: (face.vertices.map Int.ofNat ++ rest) := by
  cases hb : exportFaceBitmask opts face
      (decide (getMaterialIndex opts face ≠ -1)) with
  | error e =>
    simp only [exportFace, hb, Except.bind, bind] at h
    exact absurd h (by simp)
  | ok n =>
    simp only [exportFace, hb, Except.bind, bind, pure, Except.pure] at h
    injection h with h2
    subst h2
    split_ifs
    · exact ⟨n, [getMaterialIndex opts face] ++ face.uvIndices.map Int.ofNat ++
        face.normalIndices.map Int.ofNat, by simp⟩
    · exact ⟨n, face.uvIndices.map Int.ofNat ++
        face.normalIndices.map Int.ofNat, by simp⟩
    · exact ⟨n, [getMaterialIndex opts face] ++
        face.normalIndices.map Int.ofNat, by simp⟩
    · exact ⟨n, face.normalIndices.map Int.ofNat, by simp⟩
    · exact ⟨n, [getMaterialIndex opts face] ++
        face.uvIndices.map Int.ofNat, by simp⟩
    · exact ⟨n, face.uvIndices.map Int.ofNat, by simp⟩
    · exact ⟨n, [getMaterialIndex opts face], by simp⟩
    · exact ⟨n, [], by simp⟩

/-- Witness for the amended C1: the concrete triangle's record is its
bitmask followed by its unchanged local indices. -/
theorem claim1_amended_localFaceIndices_witness :
    ∃ bm rest, ([0, 0, 1, 2] : List Int) =
      (bm : Int) :: (demoFaceTri.vertices.map Int.ofNat ++ rest) :=
  claim1_amended_localFaceIndices demoOptsFaces demoFaceTri
    [0, 0, 1, 2] (by rfl)

/-- Rounding to 8 decimal digits is idempotent: values of `pyRound` are
fixed points of `pyRound`. -/
theorem pyRound_idem (x : ℚ) (p : Nat) :
    pyRound (pyRound x p) p = pyRound x p := by
  unfold pyRound
  have h10 : (10 : ℚ) ^ p ≠ 0 := by positivity
  rw [div_mul_cancel₀ _ h10, round_intCast]

/-- Claim C2 counterexample: the UV exporter and the skin-weight exporter
emit host values verbatim — the concrete coordinate 1/3 reaches the
output although it differs from its 8-digit rounding, so not every emitted
UV coordinate and skin weight is rounded. -/
theorem claim2_counterexample :
    exportUVs [1/3] [0] = [1/3, 0] ∧
    pyRound (1/3) FLOAT_PRECISION ≠ (1/3 : ℚ) ∧
    exportSkinVertex 1 "m" [((1/3 : ℚ), 0)] = .ok ([1/3], [0]) := by
  refine ⟨by rfl, ?_, ?_⟩
  · unfold pyRound FLOAT_PRECISION
    rw [round_eq]
    norm_num
  · unfold exportSkinVertex
    rw [show List.filter (fun p => decide (0 < p.1)) [((1/3 : ℚ), (0 : Int))] =
      [((1/3 : ℚ), (0 : Int))] from by norm_num [List.filter]]
    norm_num

/-- Claim C2 as amended: every emitted vertex position, normal, tangent,
binormal, bone/keyframe translation and quaternion component is rounded to
8 decimal digits (it is a fixed point of `pyRound`), while UV coordinates
and skin weights are written as-is — each emitted UV value comes verbatim
from the host's `u`/`v` arrays and each emitted skin weight is a verbatim
host weight or literal padding zero. -/
theorem claim2_amended_roundingCoverage :
    (∀ (ps : List Vec3) (x : ℚ), x ∈ getVertices ps →
      pyRound x FLOAT_PRECISION = x) ∧
    (∀ (nl : List Vec3) (x : ℚ), x ∈ flattenRounded nl →
      pyRound x FLOAT_PRECISION = x) ∧
    (∀ (p : Vec3) (x : ℚ), x ∈ roundPos p → pyRound x FLOAT_PRECISION = x) ∧
    (∀ (q : Quat) (x : ℚ), x ∈ roundQuat q → pyRound x FLOAT_PRECISION = x) ∧
    (∀ (us vs : List ℚ) (x : ℚ), x ∈ exportUVs us vs → x ∈ us ∨ x ∈ vs) ∧
    (∀ (ipv : Int) (nm : String) (pairs : List (ℚ × Int)) (w : List ℚ)
        (ix : List Int), exportSkinVertex ipv nm pairs = .ok (w, ix) →
      ∀ x ∈ w, x ∈ pairs.map Prod.fst ∨ x = 0) := by
  refine ⟨?_, ?_, ?_, ?_, ?_, ?_⟩
  · intro ps x hx
    induction ps with
    | nil => simp [getVertices] at hx
    | cons p rest ih =>
      simp only [getVertices, List.mem_cons] at hx
      rcases hx with rfl | rfl | rfl | h
      · exact pyRound_idem _ _
      · exact pyRound_idem _ _
      · exact pyRound_idem _ _
      · exact ih h
  · intro nl x hx
    induction nl with
    | nil => simp [flattenRounded] at hx
    | cons v rest ih =>
      simp only [flattenRounded, List.mem_cons] at hx
      rcases hx with rfl | rfl | rfl | h
      · exact pyRound_idem _ _
      · exact pyRound_idem _ _
      · exact pyRound_idem _ _
      · exact ih h
  · intro p x hx
    simp only [roundPos, List.mem_cons] at hx
    rcases hx with rfl | rfl | rfl | h
    · exact pyRound_idem _ _
    · exact pyRound_idem _ _
    · exact pyRound_idem _ _
    · simp at h
  · intro q x hx
    simp only [roundQuat, List.mem_cons] at hx
    rcases hx with rfl | rfl | rfl | rfl | h
    · exact pyRound_idem _ _
    · exact pyRound_idem _ _
    · exact pyRound_idem _ _
    · exact pyRound_idem _ _
    · simp at h
  · intro us vs x hx
    unfold exportUVs at hx
    rw [List.mem_flatMap] at hx
    rcases hx with ⟨p, hp, hxp⟩
    have hmem := List.of_mem_zip hp
    simp at hxp
    rcases hxp with rfl | rfl
    · exact Or.inl hmem.1
    · exact Or.inr hmem.2
  · intro ipv nm pairs w ix h
    simp only [exportSkinVertex] at h
    split_ifs at h with hcap
    injection h with h2
    intro x hx
    have hw : w = (pairs.filter (fun p => 0 < p.1)).map Prod.fst ++
        List.replicate
          (ipv - (pairs.filter (fun p => 0 < p.1)).length).toNat 0 := by
      have := congrArg Prod.fst h2
      simpa using this.symm
    rw [hw] at hx
    rcases List.mem_append.1 hx with hl | hr
    · rcases List.mem_map.1 hl with ⟨pp, hpp, rfl⟩
      exact Or.inl (List.mem_map.2 ⟨pp, List.mem_of_mem_filter hpp, rfl⟩)
    · exact Or.inr (List.eq_of_mem_replicate hr)

/-- Witness for the amended C2: concrete instances — a vertex coordinate
emitted for the point (1/3, 0, 0) is rounding-fixed, the UV value 1/3
reaches the output verbatim, and the skin weight 1/3 is a verbatim host
weight. -/
theorem claim2_amended_roundingCoverage_witness :
    pyRound (pyRound (1/3) FLOAT_PRECISION) FLOAT_PRECISION =
      pyRound (1/3) FLOAT_PRECISION ∧
    ((1/3 : ℚ) ∈ [(1/3 : ℚ)] ∨ (1/3 : ℚ) ∈ [(0 : ℚ)]) ∧
    ((1/3 : ℚ) ∈ ([((1/3 : ℚ), (0 : Int))].map Prod.fst) ∨ (1/3 : ℚ) = 0) := by
  refine ⟨?_, ?_, ?_⟩
  · exact claim2_amended_roundingCoverage.1 [⟨1/3, 0, 0⟩]
      (pyRound (1/3) FLOAT_PRECISION) (by simp [getVertices])
  · exact claim2_amended_roundingCoverage.2.2.2.2.1 [1/3] [0] (1/3)
      (by simp [exportUVs])
  · exact claim2_amended_roundingCoverage.2.2.2.2.2 1 "m"
      [((1/3 : ℚ), 0)] [1/3] [0]
      (by
        unfold exportSkinVertex
        rw [show List.filter (fun p => decide (0 < p.1))
          [((1/3 : ℚ), (0 : Int))] = [((1/3 : ℚ), (0 : Int))] from by
            norm_num [List.filter]]
        norm_num)
      (1/3) (by simp)

end ThreeJs
